import Mathlib

/- Formal model of the Trip_Sync repository: a trip-planning and navigation
   client (React) with a thin Express/Mongoose backend.  Client-side numeric
   code (JavaScript numbers) is embedded over the reals; stateful UI code is
   embedded as explicit state-passing functions or step relations; network
   and provider responses are passed in explicitly as `Option` arguments
   (`none` models a failed or empty provider response), paired where relevant
   with a count of provider requests issued. -/

set_option maxHeartbeats 1000000
set_option linter.unusedVariables false

/-! ## Map provider adapter: Ola Maps service file -/

namespace OlaMapsService

/-- Model of JavaScript Math.atan2 over the reals (branch structure of the
    IEEE definition, restricted to finite inputs). -/
noncomputable def atan2 (y x : ℝ) : ℝ :=
  if 0 < x then Real.arctan (y / x)
  else if x < 0 ∧ 0 ≤ y then Real.arctan (y / x) + Real.pi
  else if x < 0 ∧ y < 0 then Real.arctan (y / x) - Real.pi
  else if x = 0 ∧ 0 < y then Real.pi / 2
  else if x = 0 ∧ y < 0 then -(Real.pi / 2)
  else 0

/-- Manual Haversine implementation of calculateDistance (metres) from the
    Ola Maps service file: R = 6371e3, angles converted to radians, and
    c = 2 * atan2(sqrt a, sqrt (1 - a)). -/
noncomputable def calculateDistance (lat1 lng1 lat2 lng2 : ℝ) : ℝ :=
  let R : ℝ := 6371000
  let phi1 := lat1 * Real.pi / 180
  let phi2 := lat2 * Real.pi / 180
  let dPhi := (lat2 - lat1) * Real.pi / 180
  let dLambda := (lng2 - lng1) * Real.pi / 180
  let a := Real.sin (dPhi / 2) * Real.sin (dPhi / 2) +
    Real.cos phi1 * Real.cos phi2 * Real.sin (dLambda / 2) * Real.sin (dLambda / 2)
  let c := 2 * atan2 (Real.sqrt a) (Real.sqrt (1 - a))
  R * c

/-- A raw autocomplete prediction as delivered by the Ola provider; the two
    structured-formatting fields are optional, mirroring the
    `p.structured_formatting?.main_text` accesses in the source. -/
structure OlaRawPrediction where
  description : String
  place_id : String
  main_text : Option String
  secondary_text : Option String
deriving DecidableEq

/-- The normalized prediction built by the Ola getPlacePredictions mapping
    (structured_formatting flattened into the last two fields). -/
structure OlaPrediction where
  description : String
  place_id : String
  main_text : String
  secondary_text : String
deriving DecidableEq

/-- Ola Maps getPlacePredictions.  `providerResponse` is the outcome of the
    autocomplete fetch (`none` = network error or a body without a
    predictions field).  The second component counts HTTP requests issued:
    inputs shorter than 3 characters return ([], 0) without fetching. -/
def getPlacePredictions (input : String)
    (providerResponse : Option (List OlaRawPrediction)) : List OlaPrediction × Nat :=
  if input.length < 3 then ([], 0)
  else
    (match providerResponse with
     | none => []
     | some preds => preds.map fun p =>
        ⟨p.description, p.place_id, p.main_text.getD p.description, p.secondary_text.getD ""⟩,
     1)

/-- One origin-destination cell of a distance-matrix response. -/
structure MatrixElement where
  status : String
  distValue : Nat
  distText : String
  durValue : Nat
  durText : String
deriving DecidableEq

/-- One row (one origin) of a distance-matrix response. -/
structure MatrixRow where
  elements : List MatrixElement
deriving DecidableEq

/-- A distance-matrix response body. -/
structure DistanceMatrixResult where
  rows : List MatrixRow
deriving DecidableEq

/-- The fabricated matrix built in the catch branch of getDistanceMatrix:
    one row per origin, one element per destination, each claiming status OK
    with 1000 m / 1 km and 600 s / 10 mins. -/
def fallbackMatrix (origins destinations : List String) : DistanceMatrixResult :=
  ⟨origins.map fun _ => ⟨destinations.map fun _ => ⟨"OK", 1000, "1 km", 600, "10 mins"⟩⟩⟩

/-- Ola Maps getDistanceMatrix: returns the provider body on success and the
    fabricated success-shaped matrix on failure (`none`). -/
def getDistanceMatrix (origins destinations : List String)
    (providerResponse : Option DistanceMatrixResult) : DistanceMatrixResult :=
  match providerResponse with
  | some data => data
  | none => fallbackMatrix origins destinations

end OlaMapsService

/-! ## Map provider adapter: Google Maps service file (mapService imported by
    the screens) -/

namespace MapService

/-- Google Maps implementation of calculateDistance.  The provider's
    spherical-geometry helper is external to the repository and is passed in
    as `spherical`; the in-source guard returns 0 when the Google Maps
    library is not loaded. -/
def calculateDistance (googleLoaded : Bool) (spherical : ℝ → ℝ → ℝ → ℝ → ℝ)
    (lat1 lng1 lat2 lng2 : ℝ) : ℝ :=
  if googleLoaded then spherical lat1 lng1 lat2 lng2 else 0

/-- A raw Google autocomplete prediction (structured_formatting flattened
    into the last two fields). -/
structure GRawPrediction where
  description : String
  place_id : String
  main_text : String
  secondary_text : String
deriving DecidableEq

/-- The normalized prediction built by getAutocompletePredictions. -/
structure GPrediction where
  id : String
  place_id : String
  name : String
  vicinity : String
  main_text : String
  secondary_text : String
deriving DecidableEq

/-- Google getAutocompletePredictions: returns ([], 0) when the library is
    not loaded; otherwise always issues one provider call (there is no
    minimum-length guard in this implementation) and maps the predictions,
    with `none` modelling a non-OK status or missing predictions. -/
def getAutocompletePredictions (googleLoaded : Bool) (query : String)
    (providerResponse : Option (List GRawPrediction)) : List GPrediction × Nat :=
  if !googleLoaded then ([], 0)
  else
    (match providerResponse with
     | none => []
     | some preds => preds.map fun p =>
        ⟨p.place_id, p.place_id, p.description, p.secondary_text, p.main_text, p.secondary_text⟩,
     1)

/-- Google getPlacePredictions simply delegates to
    getAutocompletePredictions. -/
def getPlacePredictions (googleLoaded : Bool) (query : String)
    (providerResponse : Option (List GRawPrediction)) : List GPrediction × Nat :=
  getAutocompletePredictions googleLoaded query providerResponse

end MapService

/-! ## Navigation screen (turn-by-turn state) -/

/-- One turn-by-turn step of the active leg, reduced to its end coordinate
    (the only field the tracking loop reads). -/
structure RouteStep where
  endLat : ℝ
  endLng : ℝ

/-- One position-update pass of the step-advancement block in the
    watchPosition callback: with `steps` the active leg's steps and `idx` the
    current step index, the index becomes `idx + 1` exactly when the current
    step exists, the distance from the new position to its end coordinate is
    below 40, and `idx < steps.length - 1`; otherwise it is unchanged.
    `dist` is mapService.calculateDistance as used by the screen. -/
def navUpdate (dist : ℝ → ℝ → ℝ → ℝ → ℝ) (steps : List RouteStep)
    (posLat posLng : ℝ) (idx idx' : ℕ) : Prop :=
  match steps.get? idx with
  | some st =>
      (dist posLat posLng st.endLat st.endLng < 40 ∧ idx < steps.length - 1 ∧ idx' = idx + 1) ∨
      (¬ (dist posLat posLng st.endLat st.endLng < 40 ∧ idx < steps.length - 1) ∧ idx' = idx)
  | none => idx' = idx

/-- A waypoint of the ordered stop sequence: a location (free text or a
    coordinate pair) plus the stopover flag. -/
structure Waypoint where
  location : String ⊕ (ℝ × ℝ)
  stopover : Bool

/-- The NavigationScreen state slices read or written by the route-fetch
    effect and the position-watch effect. -/
structure NavScreenState where
  isLoaded : Bool
  tripFrom : String
  tripTo : String
  waypoints : List Waypoint
  currentStepIndex : ℕ
  userLocation : Option (ℝ × ℝ)
  isAutoCentering : Bool
  cameraCenter : Option (ℝ × ℝ)
  steps : List RouteStep

/-- The dependency tuple of the route-fetch effect:
    [isLoaded, currentTrip.from, currentTrip.to, waypoints]. -/
def routeDeps (s : NavScreenState) : Bool × String × String × List Waypoint :=
  (s.isLoaded, s.tripFrom, s.tripTo, s.waypoints)

/-- A fresh directions request is issued between two renders exactly when
    the route-fetch effect's dependency tuple changed and its early-return
    guard (loaded, non-empty origin and destination) passes. -/
def requestIssued (old new : NavScreenState) : Prop :=
  routeDeps new ≠ routeDeps old ∧ new.isLoaded = true ∧ new.tripFrom ≠ "" ∧ new.tripTo ≠ ""

/-- One watchPosition callback invocation: stores the new position, pans the
    camera when auto-centering is on, reverse-geocodes into currentTrip.from
    only when it is the literal "Current Location" (`geocoded` is that
    lookup's outcome), leaves destination, waypoints and the fetched steps
    untouched, and advances the step pointer per `navUpdate`. -/
def watchPositionUpdate (dist : ℝ → ℝ → ℝ → ℝ → ℝ) (s s' : NavScreenState)
    (posLat posLng : ℝ) (geocoded : Option String) : Prop :=
  s'.isLoaded = s.isLoaded ∧
  s'.userLocation = some (posLat, posLng) ∧
  s'.cameraCenter = (if s.isAutoCentering then some (posLat, posLng) else s.cameraCenter) ∧
  s'.isAutoCentering = s.isAutoCentering ∧
  s'.tripFrom = (if s.tripFrom = "Current Location" then geocoded.getD s.tripFrom else s.tripFrom) ∧
  s'.tripTo = s.tripTo ∧
  s'.waypoints = s.waypoints ∧
  s'.steps = s.steps ∧
  navUpdate dist s.steps posLat posLng s.currentStepIndex s'.currentStepIndex

/-! ## Planner screen -/

/-- The app-level screens named in the client Screen enum. -/
inductive Screen
  | Splash
  | Login
  | Home
  | ProfileSetup1
  | ProfileSetup2
  | Main
deriving DecidableEq

/-- A stay or attraction entry derived from a provider search result. -/
structure Stay where
  id : String
  name : String
  distance : String
  rating : ℚ
  image : String
deriving DecidableEq

/-- The planner-local state slices of PlannerScreen. -/
structure PlannerState where
  step : ℕ
  destination : String
  hasStayPlanned : Bool
  stayLocation : String
  stays : List Stay
  selectedStayId : Option String
  nearbyAttractions : List Stay
deriving DecidableEq

/-- The initial values of the planner-local useState hooks. -/
def initialPlannerState : PlannerState :=
  { step := 1
    destination := ""
    hasStayPlanned := false
    stayLocation := ""
    stays := []
    selectedStayId := none
    nearbyAttractions := [] }

/-- The terminal action of wizard state 3: sets destination to the literal
    "Current Location", clears the stay toggle, stay location and selected
    stay, sets step back to 1 and navigates to the Home screen. -/
def completeAndGoHome (s : PlannerState) : PlannerState × Screen :=
  ({ s with
      destination := "Current Location"
      hasStayPlanned := false
      stayLocation := ""
      selectedStayId := none
      step := 1 }, Screen.Home)

/-- A saved route as held in the application state store. -/
structure SavedRoute where
  id : String
  origin : String
  destination : String
  stay : String
deriving DecidableEq

/-- PlannerScreen handleToggleDestination composed with the context
    addRoute/removeRoute state updates: a falsy stayName is a no-op;
    otherwise the first route whose (origin, destination) matches
    (stayName, destName) is removed by id, and when none matches a route
    with the server-assigned `freshId` is prepended. -/
def handleToggleDestination (savedRoutes : List SavedRoute)
    (stayName destName freshId : String) : List SavedRoute :=
  if stayName = "" then savedRoutes
  else
    match savedRoutes.find? (fun r => r.origin == stayName && r.destination == destName) with
    | some existingRoute => savedRoutes.filter (fun r => r.id != existingRoute.id)
    | none => ⟨freshId, stayName, destName, stayName⟩ :: savedRoutes

/-- The (origin, destination) key sequence of a saved-route list. -/
def routePairs (rs : List SavedRoute) : List (String × String) :=
  rs.map fun r => (r.origin, r.destination)

/-! ## Backend: trip controller -/

/-- A stop subdocument of the Trip schema. -/
structure StopDoc where
  lat : ℚ
  lng : ℚ
  name : Option String
  stopover : Bool
deriving DecidableEq

/-- The customVehicle subdocument of the Trip schema. -/
structure CustomVehicle where
  name : Option String
  mileage : Option ℚ
deriving DecidableEq

/-- A persisted Trip document (Mongoose schema fields; ObjectIds as ℕ). -/
structure TripDoc where
  userId : ℕ
  origin : String
  destination : String
  startDate : ℕ
  startTime : String
  vehicle : Option String
  customVehicle : Option CustomVehicle
  travelers : ℕ
  tripType : String
  status : String
  stops : List StopDoc
deriving DecidableEq

/-- An update request body (each present field overwrites the document
    field, as findByIdAndUpdate does with req.body). -/
structure TripPatch where
  userId : Option ℕ := none
  origin : Option String := none
  destination : Option String := none
  startDate : Option ℕ := none
  startTime : Option String := none
  vehicle : Option (Option String) := none
  customVehicle : Option (Option CustomVehicle) := none
  travelers : Option ℕ := none
  tripType : Option String := none
  status : Option String := none
  stops : Option (List StopDoc) := none
deriving DecidableEq

/-- Apply an update body to a document. -/
def applyPatch (t : TripDoc) (p : TripPatch) : TripDoc :=
  { userId := p.userId.getD t.userId
    origin := p.origin.getD t.origin
    destination := p.destination.getD t.destination
    startDate := p.startDate.getD t.startDate
    startTime := p.startTime.getD t.startTime
    vehicle := p.vehicle.getD t.vehicle
    customVehicle := p.customVehicle.getD t.customVehicle
    travelers := p.travelers.getD t.travelers
    tripType := p.tripType.getD t.tripType
    status := p.status.getD t.status
    stops := p.stops.getD t.stops }

/-- Trip.findById over the document store (a list of id-document pairs). -/
def findById (db : List (ℕ × TripDoc)) (id : ℕ) : Option TripDoc :=
  (db.find? fun kv => kv.1 == id).map (·.2)

/-- The responses the trip controller can send. -/
inductive TripResponse
  | okTrip (t : TripDoc)
  | okMessage (m : String)
  | notFound (m : String)
  | notAuthorized (m : String)
deriving DecidableEq

/-- PUT /trips/:id — load the trip, 404 when absent, 401 when the owner is
    not the caller, otherwise write the patched document and return it. -/
def updateTrip (db : List (ℕ × TripDoc)) (callerId : ℕ) (id : ℕ) (body : TripPatch) :
    List (ℕ × TripDoc) × TripResponse :=
  match findById db id with
  | none => (db, .notFound "Trip not found")
  | some trip =>
    if trip.userId ≠ callerId then (db, .notAuthorized "Not authorized")
    else
      (db.map fun kv => if kv.1 == id then (kv.1, applyPatch kv.2 body) else kv,
       .okTrip (applyPatch trip body))

/-- DELETE /trips/:id — load the trip, 404 when absent, 401 when the owner
    is not the caller, otherwise delete the document. -/
def deleteTrip (db : List (ℕ × TripDoc)) (callerId : ℕ) (id : ℕ) :
    List (ℕ × TripDoc) × TripResponse :=
  match findById db id with
  | none => (db, .notFound "Trip not found")
  | some trip =>
    if trip.userId ≠ callerId then (db, .notAuthorized "Not authorized")
    else (db.filter fun kv => kv.1 != id, .okMessage "Trip removed")

/-! ## Application context: vehicle mutations on the user profile -/

/-- A vehicle of a user profile collection. -/
structure Vehicle where
  id : String
  regNumber : String
deriving DecidableEq

/-- The client user profile. -/
structure UserProfile where
  id : String
  name : String
  phone : String
  twoWheelers : List Vehicle
  fourWheelers : List Vehicle
deriving DecidableEq

/-- The collection selector passed as `type` to the vehicle mutations. -/
inductive VehicleType
  | twoWheelers
  | fourWheelers
deriving DecidableEq

/-- Read the selected vehicle collection. -/
def vehiclesOf (t : VehicleType) (u : UserProfile) : List Vehicle :=
  match t with
  | .twoWheelers => u.twoWheelers
  | .fourWheelers => u.fourWheelers

/-- Replace the selected vehicle collection. -/
def setVehicles (t : VehicleType) (u : UserProfile) (vs : List Vehicle) : UserProfile :=
  match t with
  | .twoWheelers => { u with twoWheelers := vs }
  | .fourWheelers => { u with fourWheelers := vs }

/-- The collection not selected by `t`. -/
def otherType (t : VehicleType) : VehicleType :=
  match t with
  | .twoWheelers => .fourWheelers
  | .fourWheelers => .twoWheelers

/-- addVehicle: a no-op when no user is logged in or the registration number
    is falsy (empty); otherwise append a vehicle with a Date.now-based id. -/
def addVehicle (t : VehicleType) (regNumber : String) (newId : String)
    (user : Option UserProfile) : Option UserProfile :=
  match user with
  | none => none
  | some cur =>
    if regNumber = "" then some cur
    else some (setVehicles t cur (vehiclesOf t cur ++ [⟨newId, regNumber⟩]))

/-- removeVehicle: filter the selected collection by id. -/
def removeVehicle (t : VehicleType) (id : String)
    (user : Option UserProfile) : Option UserProfile :=
  match user with
  | none => none
  | some cur => some (setVehicles t cur ((vehiclesOf t cur).filter fun v => v.id != id))

/-- updateVehicle: rewrite the registration number of the vehicle with the
    matching id in the selected collection. -/
def updateVehicle (t : VehicleType) (vehicle : Vehicle)
    (user : Option UserProfile) : Option UserProfile :=
  match user with
  | none => none
  | some cur =>
    some (setVehicles t cur ((vehiclesOf t cur).map fun v =>
      if v.id == vehicle.id then { v with regNumber := vehicle.regNumber } else v))

/-- A concrete trip document owned by user 7, used as a test fixture. -/
def tripDoc0 : TripDoc :=
  ⟨7, "Mumbai", "Lonavala", 0, "09:00", none, none, 1, "one-way", "planned", []⟩

/-! ## Theorems -/

lemma calculateDistance_comm (lat1 lng1 lat2 lng2 : ℝ) :
    OlaMapsService.calculateDistance lat1 lng1 lat2 lng2 =
      OlaMapsService.calculateDistance lat2 lng2 lat1 lng1 := by
  simp only [OlaMapsService.calculateDistance]
  have h1 : (lat1 - lat2) * Real.pi / 180 / 2 = -((lat2 - lat1) * Real.pi / 180 / 2) := by ring
  have h2 : (lng1 - lng2) * Real.pi / 180 / 2 = -((lng2 - lng1) * Real.pi / 180 / 2) := by ring
  have ha :
      Real.sin ((lat1 - lat2) * Real.pi / 180 / 2) * Real.sin ((lat1 - lat2) * Real.pi / 180 / 2) +
        Real.cos (lat2 * Real.pi / 180) * Real.cos (lat1 * Real.pi / 180) *
          Real.sin ((lng1 - lng2) * Real.pi / 180 / 2) *
          Real.sin ((lng1 - lng2) * Real.pi / 180 / 2) =
      Real.sin ((lat2 - lat1) * Real.pi / 180 / 2) * Real.sin ((lat2 - lat1) * Real.pi / 180 / 2) +
        Real.cos (lat1 * Real.pi / 180) * Real.cos (lat2 * Real.pi / 180) *
          Real.sin ((lng2 - lng1) * Real.pi / 180 / 2) *
          Real.sin ((lng2 - lng1) * Real.pi / 180 / 2) := by
    rw [h1, h2, Real.sin_neg, Real.sin_neg]
    ring
  rw [ha]

lemma calculateDistance_self (lat lng : ℝ) :
    OlaMapsService.calculateDistance lat lng lat lng = 0 := by
  simp only [OlaMapsService.calculateDistance]
  have h : (lat - lat) * Real.pi / 180 / 2 = 0 := by ring
  have h2 : (lng - lng) * Real.pi / 180 / 2 = 0 := by ring
  rw [h, h2]
  simp [OlaMapsService.atan2, Real.sin_zero, Real.sqrt_zero, Real.sqrt_one, Real.arctan_zero]

/-- C7: the Haversine calculateDistance is symmetric in its two coordinate
    pairs, and the distance from any point to itself is zero. -/
theorem claim_C7_distance_symm_self :
    (∀ lat1 lng1 lat2 lng2 : ℝ,
      OlaMapsService.calculateDistance lat1 lng1 lat2 lng2 =
        OlaMapsService.calculateDistance lat2 lng2 lat1 lng1) ∧
    (∀ lat lng : ℝ, OlaMapsService.calculateDistance lat lng lat lng = 0) :=
  ⟨calculateDistance_comm, calculateDistance_self⟩

/-- C9: when the distance-matrix request fails, getDistanceMatrix does not
    return an empty or sentinel result: it returns a success-shaped matrix
    with one row per origin, one element per destination, every element
    claiming status OK, 1000 metres ("1 km") and 600 seconds ("10 mins");
    feeding that same body back in as a genuine provider response yields an
    identical value, so callers cannot distinguish failure from success. -/
theorem claim_C9_distance_matrix_fallback (origins destinations : List String) :
    OlaMapsService.getDistanceMatrix origins destinations none =
      ⟨List.replicate origins.length
        ⟨List.replicate destinations.length ⟨"OK", 1000, "1 km", 600, "10 mins"⟩⟩⟩ ∧
    OlaMapsService.getDistanceMatrix origins destinations
        (some (OlaMapsService.getDistanceMatrix origins destinations none)) =
      OlaMapsService.getDistanceMatrix origins destinations none := by
  constructor
  · simp [OlaMapsService.getDistanceMatrix, OlaMapsService.fallbackMatrix]
  · rfl

/-- C5 counterexample: the Google implementation of getPlacePredictions (the
    one exported to the screens by mapService) has no minimum-length guard:
    on the two-character input "ab" with the library loaded it issues a
    provider call (request count 1, not 0) and can return predictions. -/
theorem claim_C5_counterexample :
    ("ab".length < 3) ∧
    (MapService.getPlacePredictions true "ab"
      (some [⟨"Abu Road", "p1", "Abu", "Road"⟩])).2 ≠ 0 ∧
    (MapService.getPlacePredictions true "ab"
      (some [⟨"Abu Road", "p1", "Abu", "Road"⟩])).1 ≠ [] := by
  decide

/-- C5 (amended): the Ola Maps implementation of getPlacePredictions returns
    an empty list with no network request for every input shorter than 3
    characters; the Google implementation used by the screens issues exactly
    one provider call for such inputs whenever the library is loaded. -/
theorem claim_C5_short_input (input : String)
    (oresp : Option (List OlaMapsService.OlaRawPrediction))
    (gresp : Option (List MapService.GRawPrediction)) (h : input.length < 3) :
    OlaMapsService.getPlacePredictions input oresp = ([], 0) ∧
    (MapService.getPlacePredictions true input gresp).2 = 1 := by
  constructor
  · simp [OlaMapsService.getPlacePredictions, h]
  · cases gresp <;>
      simp [MapService.getPlacePredictions, MapService.getAutocompletePredictions]

/-- C5 witness: the amended statement evaluated at the concrete short input
    "ab" with failed provider responses. -/
theorem claim_C5_witness :
    OlaMapsService.getPlacePredictions "ab" none = ([], 0) ∧
    (MapService.getPlacePredictions true "ab" none).2 = 1 :=
  claim_C5_short_input "ab" none none (by decide)

/-- C6 counterexample: completeAndGoHome neither clears the fetched
    attraction list nor restores the destination to its initial empty value
    (it overwrites it with the literal "Current Location"), so planner-local
    state is not fully reset to its initial values. -/
theorem claim_C6_counterexample :
    (completeAndGoHome
      ⟨3, "Lonavala", false, "", [], some "s1",
        [⟨"a1", "Lion Point", "2 km", 4, "img"⟩]⟩).1.nearbyAttractions ≠
      initialPlannerState.nearbyAttractions ∧
    (completeAndGoHome
      ⟨3, "Lonavala", false, "", [], some "s1",
        [⟨"a1", "Lion Point", "2 km", 4, "img"⟩]⟩).1.destination ≠
      initialPlannerState.destination := by
  decide

/-- C6 (amended): the terminal action from wizard state 3 navigates to the
    Home screen, returns the wizard to step 1, resets the stay selection
    (toggle off, empty stay location, no selected stay id), and sets the
    destination to the fixed string "Current Location" rather than its
    initial empty value; the fetched stay and attraction lists are left
    unchanged. -/
theorem claim_C6_completeAndGoHome (s : PlannerState) :
    (completeAndGoHome s).2 = Screen.Home ∧
    (completeAndGoHome s).1.step = 1 ∧
    (completeAndGoHome s).1.destination = "Current Location" ∧
    (completeAndGoHome s).1.hasStayPlanned = false ∧
    (completeAndGoHome s).1.stayLocation = "" ∧
    (completeAndGoHome s).1.selectedStayId = none ∧
    (completeAndGoHome s).1.nearbyAttractions = s.nearbyAttractions ∧
    (completeAndGoHome s).1.stays = s.stays :=
  ⟨rfl, rfl, rfl, rfl, rfl, rfl, rfl, rfl⟩

/-- C2: when the trip exists but is owned by a different user, both
    PUT /trips/:id and DELETE /trips/:id answer 401 Not authorized and leave
    the document store exactly as it was. -/
theorem claim_C2_owner_check (db : List (ℕ × TripDoc)) (callerId id : ℕ)
    (body : TripPatch) (trip : TripDoc)
    (hfind : findById db id = some trip) (hown : trip.userId ≠ callerId) :
    updateTrip db callerId id body = (db, .notAuthorized "Not authorized") ∧
    deleteTrip db callerId id = (db, .notAuthorized "Not authorized") := by
  constructor
  · simp [updateTrip, hfind, hown]
  · simp [deleteTrip, hfind, hown]

/-- C2 witness: a store holding trip 1 owned by user 7; caller 2 is refused
    on update and delete and the store is unchanged. -/
theorem claim_C2_witness :
    updateTrip [(1, tripDoc0)] 2 1 {} = ([(1, tripDoc0)], .notAuthorized "Not authorized") ∧
    deleteTrip [(1, tripDoc0)] 2 1 = ([(1, tripDoc0)], .notAuthorized "Not authorized") :=
  claim_C2_owner_check [(1, tripDoc0)] 2 1 {} tripDoc0 (by decide) (by decide)

lemma setVehicles_frame (t : VehicleType) (u : UserProfile) (vs : List Vehicle) :
    (setVehicles t u vs).id = u.id ∧ (setVehicles t u vs).name = u.name ∧
    (setVehicles t u vs).phone = u.phone ∧
    vehiclesOf (otherType t) (setVehicles t u vs) = vehiclesOf (otherType t) u := by
  cases t <;> exact ⟨rfl, rfl, rfl, rfl⟩

/-- C10: every vehicle mutation on a logged-in profile leaves the identity,
    name, phone and the non-selected vehicle collection unchanged; and
    addVehicle with an empty registration number, or with no logged-in user,
    leaves the whole state unchanged. -/
theorem claim_C10_vehicle_frame (t : VehicleType) (reg newId vid : String)
    (veh : Vehicle) (p : UserProfile) (u : Option UserProfile) :
    (∃ p', addVehicle t reg newId (some p) = some p' ∧ p'.id = p.id ∧
      p'.name = p.name ∧ p'.phone = p.phone ∧
      vehiclesOf (otherType t) p' = vehiclesOf (otherType t) p) ∧
    (∃ p', removeVehicle t vid (some p) = some p' ∧ p'.id = p.id ∧
      p'.name = p.name ∧ p'.phone = p.phone ∧
      vehiclesOf (otherType t) p' = vehiclesOf (otherType t) p) ∧
    (∃ p', updateVehicle t veh (some p) = some p' ∧ p'.id = p.id ∧
      p'.name = p.name ∧ p'.phone = p.phone ∧
      vehiclesOf (otherType t) p' = vehiclesOf (otherType t) p) ∧
    addVehicle t "" newId u = u ∧
    addVehicle t reg newId none = none := by
  refine ⟨?_, ?_, ?_, ?_, rfl⟩
  · by_cases hreg : reg = ""
    · exact ⟨p, by simp [addVehicle, hreg], rfl, rfl, rfl, rfl⟩
    · obtain ⟨h1, h2, h3, h4⟩ :=
        setVehicles_frame t p (vehiclesOf t p ++ [⟨newId, reg⟩])
      exact ⟨_, by simp [addVehicle, hreg], h1, h2, h3, h4⟩
  · obtain ⟨h1, h2, h3, h4⟩ :=
      setVehicles_frame t p ((vehiclesOf t p).filter fun v => v.id != vid)
    exact ⟨_, rfl, h1, h2, h3, h4⟩
  · obtain ⟨h1, h2, h3, h4⟩ :=
      setVehicles_frame t p ((vehiclesOf t p).map fun v =>
        if v.id == veh.id then { v with regNumber := veh.regNumber } else v)
    exact ⟨_, rfl, h1, h2, h3, h4⟩
  · cases u with
    | none => rfl
    | some cur => simp [addVehicle]

lemma calculateDistance_antipodal :
    OlaMapsService.calculateDistance 0 0 0 180 = 6371000 * Real.pi := by
  simp only [OlaMapsService.calculateDistance]
  have h1 : ((0:ℝ) - 0) * Real.pi / 180 / 2 = 0 := by ring
  have h3 : ((180:ℝ) - 0) * Real.pi / 180 / 2 = Real.pi / 2 := by ring
  have h0 : (0:ℝ) * Real.pi / 180 = 0 := by ring
  rw [h1, h3, h0]
  norm_num [Real.sin_zero, Real.cos_zero, Real.sin_pi_div_two, OlaMapsService.atan2]
  ring

/-- C8 counterexample: the Google-file calculateDistance returns 0 whenever
    the maps library is not loaded, so at (0,0) vs (0,180) it differs from
    the manual Haversine implementation by far more than 1000 metres — the
    two implementations do not agree within any floating-point tolerance. -/
theorem claim_C8_counterexample :
    ¬ |OlaMapsService.calculateDistance 0 0 0 180 -
        MapService.calculateDistance false (fun _ _ _ _ => 0) 0 0 0 180| ≤ 1000 := by
  rw [calculateDistance_antipodal, not_le]
  have hz : MapService.calculateDistance false (fun _ _ _ _ => 0) 0 0 0 180 = 0 := rfl
  rw [hz, sub_zero, abs_of_pos (by positivity)]
  nlinarith [Real.pi_gt_three]

/-- C8 (amended): the Google-file calculateDistance adds nothing of its own:
    when the library is loaded it returns exactly the provider's
    spherical-geometry helper's value, so agreement with the Haversine
    implementation within a tolerance holds exactly when the external helper
    agrees within that tolerance; when the library is not loaded it returns
    0 and does not agree. -/
theorem claim_C8_provider_delegation (tol : ℝ) (spherical : ℝ → ℝ → ℝ → ℝ → ℝ)
    (lat1 lng1 lat2 lng2 : ℝ)
    (h : |spherical lat1 lng1 lat2 lng2 -
          OlaMapsService.calculateDistance lat1 lng1 lat2 lng2| ≤ tol) :
    |MapService.calculateDistance true spherical lat1 lng1 lat2 lng2 -
      OlaMapsService.calculateDistance lat1 lng1 lat2 lng2| ≤ tol ∧
    MapService.calculateDistance false spherical lat1 lng1 lat2 lng2 = 0 :=
  ⟨h, rfl⟩

/-- C8 witness: instantiating the external helper with the Haversine itself,
    agreement is exact at the origin. -/
theorem claim_C8_witness :
    |MapService.calculateDistance true
        (fun a b c d => OlaMapsService.calculateDistance a b c d) 0 0 0 0 -
      OlaMapsService.calculateDistance 0 0 0 0| ≤ 0 ∧
    MapService.calculateDistance false
        (fun a b c d => OlaMapsService.calculateDistance a b c d) 0 0 0 0 = 0 :=
  claim_C8_provider_delegation 0 (fun a b c d => OlaMapsService.calculateDistance a b c d)
    0 0 0 0 (by simp)

lemma navUpdate_bounds (dist : ℝ → ℝ → ℝ → ℝ → ℝ) (steps : List RouteStep)
    (posLat posLng : ℝ) (idx idx' : ℕ)
    (h : navUpdate dist steps posLat posLng idx idx') :
    idx ≤ idx' ∧ idx' ≤ idx + 1 := by
  cases hst : steps.get? idx with
  | none =>
    simp only [navUpdate, hst] at h
    omega
  | some st =>
    simp only [navUpdate, hst] at h
    rcases h with ⟨_, _, h⟩ | ⟨_, h⟩ <;> omega

lemma navUpdate_succ_iff (dist : ℝ → ℝ → ℝ → ℝ → ℝ) (steps : List RouteStep)
    (posLat posLng : ℝ) (idx idx' : ℕ)
    (h : navUpdate dist steps posLat posLng idx idx') :
    idx' = idx + 1 ↔ ∃ st, steps.get? idx = some st ∧
      dist posLat posLng st.endLat st.endLng < 40 ∧ idx < steps.length - 1 := by
  cases hst : steps.get? idx with
  | none =>
    simp only [navUpdate, hst] at h
    subst h
    constructor
    · intro he
      omega
    · rintro ⟨st, hst2, -, -⟩
      exact Option.noConfusion hst2
  | some st =>
    simp only [navUpdate, hst] at h
    rcases h with ⟨hd, hn, he⟩ | ⟨hneg, he⟩
    · subst he
      exact iff_of_true rfl ⟨st, rfl, hd, hn⟩
    · subst he
      constructor
      · intro he2
        omega
      · rintro ⟨st2, hst2, hd2, hn2⟩
        injection hst2 with hst2
        subst hst2
        exact absurd ⟨hd2, hn2⟩ hneg

/-- C1: under any position update, the step pointer never moves backward and
    changes by at most one; it becomes idx + 1 exactly when the current step
    exists, the computed distance from the new position to that step's end
    coordinate is below 40 metres, and a next step exists in the leg. -/
theorem claim_C1_step_advancement (dist : ℝ → ℝ → ℝ → ℝ → ℝ) (steps : List RouteStep)
    (posLat posLng : ℝ) (idx idx' : ℕ)
    (h : navUpdate dist steps posLat posLng idx idx') :
    idx ≤ idx' ∧ idx' ≤ idx + 1 ∧
    (idx' = idx + 1 ↔ ∃ st, steps.get? idx = some st ∧
      dist posLat posLng st.endLat st.endLng < 40 ∧ idx < steps.length - 1) :=
  ⟨(navUpdate_bounds dist steps posLat posLng idx idx' h).1,
   (navUpdate_bounds dist steps posLat posLng idx idx' h).2,
   navUpdate_succ_iff dist steps posLat posLng idx idx' h⟩

/-- C1 witness: a two-step leg with the device sitting on the first step's
    end point (distance 0 < 40): the pointer advances from 0 to exactly 1. -/
theorem claim_C1_witness :
    (0:ℕ) ≤ 1 ∧ (1:ℕ) ≤ 0 + 1 ∧
    ((1:ℕ) = 0 + 1 ↔ ∃ st, ([⟨0, 0⟩, ⟨1, 1⟩] : List RouteStep).get? 0 = some st ∧
      (fun _ _ _ _ => (0:ℝ)) 0 0 st.endLat st.endLng < 40 ∧
      0 < ([⟨0, 0⟩, ⟨1, 1⟩] : List RouteStep).length - 1) :=
  claim_C1_step_advancement (fun _ _ _ _ => 0) [⟨0, 0⟩, ⟨1, 1⟩] 0 0 0 1
    (by unfold navUpdate; exact Or.inl ⟨by norm_num, by norm_num, rfl⟩)

/-- C4: a watchPosition update that leaves the origin string unchanged (and
    hence, since it never touches destination or waypoints, leaves the whole
    dependency tuple of the route-fetch effect unchanged) never issues a
    fresh directions request; it only advances the step pointer (by at most
    one, never backward) and recenters the camera when auto-centering is on.
    Conversely, a directions request is only ever issued when the dependency
    tuple — loaded flag, origin, destination or waypoint sequence — has
    changed. -/
theorem claim_C4_reroute_policy (dist : ℝ → ℝ → ℝ → ℝ → ℝ) (s s' : NavScreenState)
    (posLat posLng : ℝ) (geocoded : Option String)
    (h : watchPositionUpdate dist s s' posLat posLng geocoded)
    (hfrom : s'.tripFrom = s.tripFrom) :
    ¬ requestIssued s s' ∧
    s.currentStepIndex ≤ s'.currentStepIndex ∧
    s'.currentStepIndex ≤ s.currentStepIndex + 1 ∧
    (s.isAutoCentering = true → s'.cameraCenter = some (posLat, posLng)) ∧
    (∀ old new : NavScreenState, requestIssued old new → routeDeps new ≠ routeDeps old) := by
  obtain ⟨hload, hloc, hcam, hauto, hfrom2, hto, hwp, hsteps, hnav⟩ := h
  refine ⟨?_, (navUpdate_bounds dist s.steps posLat posLng _ _ hnav).1,
    (navUpdate_bounds dist s.steps posLat posLng _ _ hnav).2, ?_, fun _ _ hr => hr.1⟩
  · rintro ⟨hdeps, -, -, -⟩
    exact hdeps (by simp [routeDeps, hload, hfrom, hto, hwp])
  · intro hac
    rw [hcam, hac]
    simp

/-- C4 witness: with origin "Mumbai" (not "Current Location"), a position
    update to (0,0) issues no directions request, leaves the step pointer at
    0, and recenters the camera. -/
theorem claim_C4_witness :
    ¬ requestIssued ⟨true, "Mumbai", "Pune", [], 0, none, true, none, []⟩
        ⟨true, "Mumbai", "Pune", [], 0, some (0, 0), true, some (0, 0), []⟩ ∧
    (0:ℕ) ≤ 0 ∧ (0:ℕ) ≤ 0 + 1 ∧
    (true = true → some ((0:ℝ), (0:ℝ)) = some ((0:ℝ), (0:ℝ))) ∧
    (∀ old new : NavScreenState, requestIssued old new → routeDeps new ≠ routeDeps old) :=
  claim_C4_reroute_policy (fun _ _ _ _ => 0)
    ⟨true, "Mumbai", "Pune", [], 0, none, true, none, []⟩
    ⟨true, "Mumbai", "Pune", [], 0, some (0, 0), true, some (0, 0), []⟩
    0 0 none
    (by
      refine ⟨rfl, rfl, ?_, rfl, ?_, rfl, rfl, rfl, ?_⟩
      · simp
      · rw [if_neg (by decide)]
      · unfold navUpdate
        rfl)
    rfl

lemma filter_ne_id_perm (r : SavedRoute) (routes : List SavedRoute) (hmem : r ∈ routes)
    (hnodup : (routes.map SavedRoute.id).Nodup) :
    routes.Perm (r :: routes.filter fun q => q.id != r.id) := by
  induction routes with
  | nil => exact absurd hmem (List.not_mem_nil r)
  | cons a tl ih =>
    rw [List.map_cons, List.nodup_cons] at hnodup
    obtain ⟨ha, htl⟩ := hnodup
    rcases List.mem_cons.mp hmem with rfl | hr
    · have hsame : tl.filter (fun q => q.id != r.id) = tl := by
        apply List.filter_eq_self.mpr
        intro q hq
        rw [bne_iff_ne]
        intro heq
        exact ha (heq ▸ List.mem_map_of_mem SavedRoute.id hq)
      rw [List.filter_cons_of_neg, hsame]
      · simp
    · have haid : ((fun q : SavedRoute => q.id != r.id) a) = true := by
        rw [bne_iff_ne]
        intro he
        exact ha (he ▸ List.mem_map_of_mem SavedRoute.id hr)
      rw [@List.filter_cons_of_pos _ (fun q : SavedRoute => q.id != r.id) a tl haid]
      have h1 : tl.Perm (r :: tl.filter fun q => q.id != r.id) := ih hr htl
      exact (h1.cons a).trans (List.Perm.swap r a _)

/-- C3 counterexample: on a saved-route list holding two routes with the
    same (origin, destination) pair, toggling that pair twice removes both
    (the first toggle removes the first match, the second toggle still finds
    the duplicate and removes it too), leaving a list in which the pair no
    longer occurs at all — not the original membership. -/
theorem claim_C3_counterexample :
    handleToggleDestination (handleToggleDestination
      [⟨"i1", "A", "B", "s"⟩, ⟨"i2", "A", "B", "s"⟩] "A" "B" "f1") "A" "B" "f2" = [] ∧
    ("A", "B") ∈ routePairs [⟨"i1", "A", "B", "s"⟩, (⟨"i2", "A", "B", "s"⟩ : SavedRoute)] := by
  decide

/-- C3 (amended): provided route ids are pairwise distinct, at most one
    saved route carries the toggled (origin, destination) pair, the stay
    name is non-empty, and the server-assigned id of a newly added route is
    fresh, toggling the pair twice restores the original multiset of
    (origin, destination) keys (and, when the pair was absent, the original
    list itself); the restored route may carry a new id and stay field. -/
theorem claim_C3_toggle_roundtrip (savedRoutes : List SavedRoute)
    (stayName destName f1 f2 : String)
    (hStay : stayName ≠ "")
    (hNodup : (savedRoutes.map SavedRoute.id).Nodup)
    (hUnique : savedRoutes.countP
      (fun r => r.origin == stayName && r.destination == destName) ≤ 1)
    (hFresh : f1 ∉ savedRoutes.map SavedRoute.id) :
    (routePairs (handleToggleDestination
        (handleToggleDestination savedRoutes stayName destName f1)
        stayName destName f2)).Perm
      (routePairs savedRoutes) := by
  cases hfind : savedRoutes.find?
      (fun r => r.origin == stayName && r.destination == destName) with
  | none =>
    have ht1 : handleToggleDestination savedRoutes stayName destName f1 =
        ⟨f1, stayName, destName, stayName⟩ :: savedRoutes := by
      simp [handleToggleDestination, hStay, hfind]
    have hpnew : ((fun r : SavedRoute => r.origin == stayName && r.destination == destName)
        ⟨f1, stayName, destName, stayName⟩) = true := by simp
    have hfindnew : List.find?
        (fun r : SavedRoute => r.origin == stayName && r.destination == destName)
        (⟨f1, stayName, destName, stayName⟩ :: savedRoutes) =
        some ⟨f1, stayName, destName, stayName⟩ :=
      List.find?_cons_of_pos savedRoutes hpnew
    have ht2 : handleToggleDestination
        (⟨f1, stayName, destName, stayName⟩ :: savedRoutes) stayName destName f2 =
        savedRoutes := by
      simp only [handleToggleDestination, if_neg hStay, hfindnew]
      rw [List.filter_cons_of_neg (by simp)]
      apply List.filter_eq_self.mpr
      intro q hq
      rw [bne_iff_ne]
      intro he
      exact hFresh (he ▸ List.mem_map_of_mem SavedRoute.id hq)
    rw [ht1, ht2]
  | some r =>
    have hmem : r ∈ savedRoutes := List.mem_of_find?_eq_some hfind
    have hpr := List.find?_some hfind
    obtain ⟨hro, hrd⟩ : r.origin = stayName ∧ r.destination = destName := by
      simpa using hpr
    have ht1 : handleToggleDestination savedRoutes stayName destName f1 =
        savedRoutes.filter fun q => q.id != r.id := by
      simp [handleToggleDestination, hStay, hfind]
    have hperm : savedRoutes.Perm (r :: savedRoutes.filter fun q => q.id != r.id) :=
      filter_ne_id_perm r savedRoutes hmem hNodup
    have hcount : (savedRoutes.filter fun q => q.id != r.id).countP
        (fun q => q.origin == stayName && q.destination == destName) = 0 := by
      have h1 := hperm.countP_eq (fun q => q.origin == stayName && q.destination == destName)
      rw [List.countP_cons] at h1
      simp [hpr] at h1
      omega
    have hfind2 : (savedRoutes.filter fun q => q.id != r.id).find?
        (fun q => q.origin == stayName && q.destination == destName) = none := by
      rw [List.find?_eq_none]
      intro x hx
      have hx2 := List.countP_eq_zero.mp hcount x hx
      simpa using hx2
    have ht2 : handleToggleDestination (savedRoutes.filter fun q => q.id != r.id)
        stayName destName f2 =
        ⟨f2, stayName, destName, stayName⟩ :: savedRoutes.filter fun q => q.id != r.id := by
      simp [handleToggleDestination, hStay, hfind2]
    rw [ht1, ht2]
    have hpairs : routePairs (⟨f2, stayName, destName, stayName⟩ ::
        savedRoutes.filter fun q => q.id != r.id) =
        routePairs (r :: savedRoutes.filter fun q => q.id != r.id) := by
      simp [routePairs, hro, hrd]
    rw [hpairs]
    exact (hperm.map fun q => (q.origin, q.destination)).symm

/-- C3 witness: a list holding one unrelated route; toggling ("A", "B")
    twice restores the original (origin, destination) key multiset. -/
theorem claim_C3_witness :
    (routePairs (handleToggleDestination
        (handleToggleDestination [⟨"i1", "X", "Y", "s"⟩] "A" "B" "f1")
        "A" "B" "f2")).Perm
      (routePairs [⟨"i1", "X", "Y", "s"⟩]) :=
  claim_C3_toggle_roundtrip [⟨"i1", "X", "Y", "s"⟩] "A" "B" "f1" "f2"
    (by decide) (by decide) (by decide) (by decide)
